import Mathlib

/-!
Shallow embedding of the JoJo wellness-chat crisis pipeline of the
fitness-tracker backend. The definitions below are translated from
`src/server/src/routes/jojo.js` (crisis keyword tables, `detectCrisis`,
`generateCrisisResponse`, `getCrisisResources`, `getCrisisHotlines`,
`mapMessageType`, and the POST `/message` handler) and from
`src/server/src/services/aiService.js` (`generateJoJoResponse`,
`analyzeResponse`, `formatConversationHistory`, `getFallbackResponse`),
together with the record types of the Prisma schema that those routines
read and write (`ChatConversation`, `ChatMessage`, `CrisisLog`,
`WellnessProfile`, `ChatAnalytics`).

Modelling conventions:
- JavaScript strings are modelled by `String`; `str.length` is modelled by
  codepoint count (the texts exercised by the claims are ASCII, where the
  two coincide), `toLowerCase` by `jsToLower` (ASCII lowering, which
  agrees with JS on the ASCII keyword tables involved), `includes` by
  `strIncludes`, `trim` by `jsTrim` over the standard whitespace set, and
  `substring (0, n)` by `jsSubstring`.
- Timestamps are `Nat` milliseconds; `new Date()` is the `now` parameter of
  the handler, and the zeroed daily date used by the analytics upsert is
  modelled by `dayStart` (UTC midnight; the source zeroes local time).
- Database tables are lists held in a `Store`, appended in creation order;
  `orderBy createdAt desc` is therefore list reversal. Prisma id
  generation is modelled by the `nextId` counter.
- Fractional confidences are stored in hundredths (0.85 becomes 85) to
  avoid floating point; no claim depends on their values.
- The external Groq completion call is an oracle parameter
  `provider : Option String` (`some text` for a 2xx response with that
  completion text, `none` for a network failure, error status or timeout).
  Every history argument the code hands to the completion call is logged
  in `completionCalls`, giving the call count the claims speak about.
-/

set_option maxRecDepth 20000
set_option linter.unusedVariables false

/-- Prefix test over character lists: `leadsList needle hay` holds when
`needle` is an initial segment of `hay` (used to model JS `includes`). -/
def leadsList : List Char → List Char → Bool
  | [], _ => true
  | _ :: _, [] => false
  | a :: as, b :: bs => a == b && leadsList as bs

/-- Substring containment over character lists: JS `hay.includes(needle)`. -/
def hasSubstr : List Char → List Char → Bool
  | [], needle => needle.isEmpty
  | c :: t, needle => leadsList needle (c :: t) || hasSubstr t needle

/-- Model of JavaScript `s.includes(sub)`. -/
def strIncludes (s sub : String) : Bool :=
  hasSubstr s.toList sub.toList

/-- Whitespace recognised by JS `String.prototype.trim` (ASCII portion). -/
def isJsWhitespace (c : Char) : Bool :=
  c == ' ' || c == '\t' || c == '\n' || c == '\r' || c == '\x0b' || c == '\x0c'

/-- Model of JavaScript `s.trim()`: strip whitespace from both ends. -/
def jsTrim (s : String) : String :=
  String.mk (((s.toList.dropWhile isJsWhitespace).reverse.dropWhile isJsWhitespace).reverse)

/-- Model of JavaScript `s.substring(0, n)`. -/
def jsSubstring (s : String) (n : Nat) : String :=
  String.mk (s.toList.take n)

/-- Model of JavaScript `s.toLowerCase()` (ASCII lowering, which agrees
with JS on the ASCII texts the keyword tables use). -/
def jsToLower (s : String) : String :=
  String.mk (s.toList.map Char.toLower)

/-- Message sender enum of the Prisma schema (`MessageSender`). -/
inductive Sender where
  | USER
  | JOJO
  deriving DecidableEq, Repr

/-- Message type enum of the Prisma schema (`MessageType`). -/
inductive MessageType where
  | TEXT
  | SUGGESTION
  | EXERCISE
  | RECIPE
  | MENTAL_HEALTH
  | CRISIS_RESPONSE
  | GOAL_SETTING
  | PROGRESS_UPDATE
  deriving DecidableEq, Repr

/-- Risk levels. `LOW`, `MEDIUM`, `HIGH`, `CRITICAL` are the Prisma
`CrisisRiskLevel` enum; `NONE` is the in-band sentinel string the detector
uses before deciding a message is not a crisis. The detector never emits
`CRITICAL`. -/
inductive RiskLevel where
  | NONE
  | LOW
  | MEDIUM
  | HIGH
  | CRITICAL
  deriving DecidableEq, Repr

/-- The `HIGH_RISK` keyword list of `CRISIS_KEYWORDS` in jojo.js. -/
def HIGH_RISK : List String :=
  ["kill myself", "suicide", "end my life", "overdose", "hanging myself",
   "jump off", "better off dead", "end it all", "kill me"]

/-- The `MEDIUM_RISK` keyword list of `CRISIS_KEYWORDS` in jojo.js. -/
def MEDIUM_RISK : List String :=
  ["want to die", "hurt myself", "self harm", "cut myself", "suicidal",
   "self-harm", "harm myself", "hate myself", "worthless", "hopeless",
   "cannot go on", "give up on life", "not worth living"]

/-- The `LOW_RISK` keyword list of `CRISIS_KEYWORDS` in jojo.js. -/
def LOW_RISK : List String :=
  ["depressed", "sad all the time", "can\x27t cope", "overwhelmed",
   "life is hard", "struggling", "feeling down"]

/-- Risk classification part of `detectCrisis` (jojo.js lines 169-202):
lowercase the message, collect the HIGH matches; if none, the MEDIUM
matches; if none, the LOW matches. Returns the tier together with the
matched keywords of the winning tier (`detectedKeywords`). This fragment
of `detectCrisis` reads only the message, not the profile. -/
def classifyRisk (message : String) : RiskLevel × List String :=
  let lowerMessage := jsToLower message
  let highRiskFound := HIGH_RISK.filter (fun keyword => strIncludes lowerMessage keyword)
  if highRiskFound.length > 0 then
    (RiskLevel.HIGH, highRiskFound)
  else
    let mediumRiskFound := MEDIUM_RISK.filter (fun keyword => strIncludes lowerMessage keyword)
    if mediumRiskFound.length > 0 then
      (RiskLevel.MEDIUM, mediumRiskFound)
    else
      let lowRiskFound := LOW_RISK.filter (fun keyword => strIncludes lowerMessage keyword)
      if lowRiskFound.length > 0 then
        (RiskLevel.LOW, lowRiskFound)
      else
        (RiskLevel.NONE, [])


/-- Wellness profile fields read by the chat core (Prisma
`WellnessProfile`): the `region` lookup key for hotline selection and the
`crisisMonitoring` flag (stored but never consulted by `detectCrisis`).
The remaining profile fields (age, gender, goals, restrictions and so on)
only feed the unmodelled system-prompt personalisation and are omitted;
note the schema has no `firstName` on `WellnessProfile`, so the
`profile?.firstName` read in `getFallbackResponse` is always undefined. -/
structure WellnessProfile where
  userId : String
  region : Option String
  crisisMonitoring : Bool
  deriving DecidableEq, Repr

/-- Chat conversation row (Prisma `ChatConversation`). -/
structure ChatConversation where
  id : String
  userId : String
  title : String
  isActive : Bool
  lastMessageAt : Nat
  deriving DecidableEq, Repr

/-- Chat message row (Prisma `ChatMessage`). `triggerKeywords` is stored
as a JSON-encoded array in the source and as the list itself here. -/
structure ChatMessage where
  id : Nat
  conversationId : String
  userId : String
  content : String
  sender : Sender
  messageType : MessageType
  createdAt : Nat
  responseTime : Option Nat
  confidence : Option Nat
  triggerKeywords : Option (List String)
  deriving DecidableEq, Repr

/-- Crisis log row (Prisma `CrisisLog`). The JSON-encoded string fields
(`keywords`, `resourcesShared`, `hotlinesProvided`) are kept as lists. -/
structure CrisisLog where
  userId : String
  messageId : Option Nat
  triggerContent : String
  keywords : List String
  riskLevel : RiskLevel
  responseGiven : String
  resourcesShared : List String
  userRegion : Option String
  hotlinesProvided : List String
  followUpNeeded : Bool
  adminNotified : Bool
  deriving DecidableEq, Repr

/-- Daily chat analytics row (Prisma `ChatAnalytics`), keyed by
(userId, date). -/
structure ChatAnalytics where
  userId : String
  date : Nat
  messagesCount : Nat
  conversationTime : Nat
  deriving DecidableEq, Repr

/-- Regional hotline text block: the `getLocalHotlines` helper nested in
`generateCrisisResponse` (jojo.js lines 222-253), lifted to top level.
The emoji/flag glyphs that open each block in the source (stored there in
a double-encoded form) are not reproduced; no claim inspects them. -/
def getLocalHotlines (region : Option String) : String :=
  let regionLower := (region.map jsToLower).getD ("")
  if strIncludes regionLower ("nigeria") || strIncludes regionLower ("ng") then
    "**Nigeria Emergency Contacts:**\n- **Emergency Services:** 199, 911\n- **Mental Health Helpline:** +234 809 210 6493\n- **Lagos State Domestic & Sexual Violence Response Team:** 08000333333\n- **Suicide Prevention:** Contact nearest hospital emergency room"
  else if strIncludes regionLower ("usa") || strIncludes regionLower ("united states") then
    "**USA Crisis Resources:**\n- **988 Suicide & Crisis Lifeline:** 988 (24/7)\n- **Crisis Text Line:** Text HOME to 741741\n- **National Domestic Violence Hotline:** 1-800-799-7233\n- **Emergency Services:** 911"
  else if strIncludes regionLower ("uk") || strIncludes regionLower ("united kingdom") then
    "**UK Crisis Resources:**\n- **Samaritans:** 116 123 (free, 24/7)\n- **Crisis Text Line:** Text SHOUT to 85258\n- **National Domestic Abuse Helpline:** 0808 2000 247\n- **Emergency Services:** 999"
  else
    "**International Crisis Resources:**\n- **International Association for Suicide Prevention:** https://www.iasp.info/resources/Crisis_Centres/\n- **Befrienders Worldwide:** https://www.befrienders.org/\n- **Emergency Services:** Contact your local emergency number"

/-- The `generateCrisisResponse` template function of jojo.js (lines
221-327): a fixed template per tier interpolating the regional hotline
block. Text is transcribed without the source emoji glyphs (see
`getLocalHotlines`); apostrophes are written as \x27 escapes. The `else`
branch is the LOW template (any tier other than HIGH/MEDIUM). -/
def generateCrisisResponse (region : Option String) (riskLevel : RiskLevel) : String :=
  if riskLevel = RiskLevel.HIGH then
    "**URGENT: I\x27m deeply concerned about you**\n\nI hear that you\x27re in significant emotional pain right now. Your life has value, and you deserve support and help.\n\n**IMMEDIATE HELP:**\nPlease reach out for professional support right now:\n" ++ getLocalHotlines region ++ "\n\n**IMMEDIATE SAFETY STEPS:**\n1. **Stay with someone** - Don\x27t be alone right now\n2. **Remove any means of harm** - Ask someone to help\n3. **Go to your nearest emergency room** if you\x27re in immediate danger\n4. **Call emergency services** if you need immediate help\n\n**YOU ARE NOT ALONE:**\n- These feelings can change with proper help\n- Mental health professionals are trained for exactly this\n- Many people who felt this way found relief and meaning again\n- Your pain is real, but it can be treated\n\n**PLEASE CALL ONE OF THE NUMBERS ABOVE RIGHT NOW**\n\nI\x27m an AI and cannot provide the emergency support you need, but human professionals are standing by 24/7 to help you through this crisis.\n\nYour life matters. You matter. Please reach out for help.\n\n**This is not a substitute for professional mental health care. Please contact emergency services or a crisis hotline immediately.**"
  else if riskLevel = RiskLevel.MEDIUM then
    "**I\x27m concerned about you and want to help**\n\nIt sounds like you\x27re going through a really difficult time. Your feelings are valid, and there are people who want to support you.\n\n**Support Resources:**\n" ++ getLocalHotlines region ++ "\n\n**Immediate steps that might help:**\n- Reach out to a trusted friend, family member, or counselor\n- Consider professional support - therapy can be incredibly helpful\n- Practice grounding techniques: deep breathing, name 5 things you can see\n- Remember: difficult feelings are temporary and can change\n\n**You deserve support:**\n- Your struggles are real and valid\n- Professional help can provide tools and strategies\n- Many people have worked through similar challenges\n\nIf you\x27re having thoughts of self-harm, please reach out to the crisis resources above immediately.\n\n**Please consider reaching out to a mental health professional for ongoing support.**"
  else
    "**I hear that you\x27re having a tough time**\n\nIt\x27s completely normal to feel overwhelmed sometimes. Thank you for sharing - that takes courage.\n\n**Some things that might help:**\n- Talk to someone you trust about how you\x27re feeling\n- Consider speaking with a counselor or therapist\n- Practice self-care activities that usually help you feel better\n- Remember that difficult periods don\x27t last forever\n\n**If you need someone to talk to:**\n" ++ getLocalHotlines region ++ "\n\n**Gentle reminders:**\n- Your feelings are valid\n- It\x27s okay to ask for help\n- Taking care of your mental health is important\n- Small steps forward still count as progress\n\nIs there something specific I can help you with today? I\x27m here to support your wellness journey."

/-- The `getCrisisResources` function of jojo.js (lines 330-352). -/
def getCrisisResources (region : Option String) : List String :=
  let regionLower := (region.map jsToLower).getD ("")
  if strIncludes regionLower ("nigeria") then
    ["Crisis hotlines", "Emergency services (199, 911)", "Mental health professionals",
     "Hospital emergency rooms", "Lagos State DSVRT", "Community health centers"]
  else
    ["Crisis hotlines", "Emergency services", "Mental health professionals",
     "Hospital emergency rooms", "Community support services", "Online crisis chat services"]

/-- The `getCrisisHotlines` function of jojo.js (lines 355-372):
case-insensitive substring match of the region against the fixed table,
falling back to the international entry. Being a total function, it can
never raise an error, which is how the source behaves as well. -/
def getCrisisHotlines (region : Option String) : List String :=
  let regionLower := (region.map jsToLower).getD ("")
  if strIncludes regionLower ("nigeria") then
    ["+234 809 210 6493", "199", "911", "08000333333"]
  else if strIncludes regionLower ("usa") then
    ["988", "741741", "911", "1-800-799-7233"]
  else if strIncludes regionLower ("uk") then
    ["116 123", "85258", "999", "0808 2000 247"]
  else if strIncludes regionLower ("canada") then
    ["1-833-456-4566", "45645", "911"]
  else
    ["Local emergency services"]

/-- Result record of `detectCrisis`. In the source the non-crisis return
value is the bare object with only `isCrisis: false`; here the remaining
fields are defaulted to the sentinel/empty values. -/
structure CrisisDetection where
  isCrisis : Bool
  riskLevel : RiskLevel
  keywords : List String
  response : String
  resources : List String
  hotlines : List String
  deriving DecidableEq, Repr

/-- The `detectCrisis` function of jojo.js (lines 169-218): classify the
message (see `classifyRisk`), and on a hit render the crisis response and
the regional resource/hotline lists from `profile?.region`. -/
def detectCrisis (message : String) (profile : Option WellnessProfile) : CrisisDetection :=
  let riskLevel := (classifyRisk message).1
  let detectedKeywords := (classifyRisk message).2
  if riskLevel = RiskLevel.NONE then
    { isCrisis := false, riskLevel := RiskLevel.NONE, keywords := [],
      response := "", resources := [], hotlines := [] }
  else
    { isCrisis := true, riskLevel := riskLevel, keywords := detectedKeywords,
      response := generateCrisisResponse (profile.bind (fun p => p.region)) riskLevel,
      resources := getCrisisResources (profile.bind (fun p => p.region)),
      hotlines := getCrisisHotlines (profile.bind (fun p => p.region)) }


/-- The `mapMessageType` function of jojo.js (lines 375-387): maps the
AI-side type tag (a string) to the Prisma `MessageType` stored on the
message, defaulting to `TEXT` for unknown tags. -/
def mapMessageType (aiType : String) : MessageType :=
  if aiType == "GREETING" then MessageType.TEXT
  else if aiType == "SUGGESTION" then MessageType.TEXT
  else if aiType == "EXERCISE" then MessageType.TEXT
  else if aiType == "NUTRITION" then MessageType.RECIPE
  else if aiType == "MENTAL_HEALTH" then MessageType.TEXT
  else if aiType == "SLEEP" then MessageType.TEXT
  else if aiType == "CRISIS_RESPONSE" then MessageType.TEXT
  else MessageType.TEXT

/-- Word list of the keyword-extraction regex in `analyzeResponse`
(aiService.js line 220). -/
def KEYWORD_PATTERN : List String :=
  ["weight", "loss", "muscle", "fitness", "nutrition", "stress", "anxiety",
   "sleep", "workout", "exercise", "diet", "mental", "health", "meditation",
   "yoga", "strength", "cardio", "protein", "calories", "goal", "plan"]

/-- JS regex word character class `\w`, namely `[A-Za-z0-9_]`. -/
def isWordChar (c : Char) : Bool :=
  let n := c.toNat
  (65 ≤ n && n ≤ 90) || (97 ≤ n && n ≤ 122) || (48 ≤ n && n ≤ 57) || n == 95

/-- Case-insensitive prefix match of a lowercase pattern against the input
characters, returning the characters after the match. -/
def ciMatchPrefix : List Char → List Char → Option (List Char)
  | [], rest => some rest
  | _ :: _, [] => none
  | k :: ks, c :: cs => if c.toLower == k then ciMatchPrefix ks cs else none

/-- Try the regex alternatives in listed order at the current position,
requiring the trailing word boundary (the leading boundary is checked by
the caller); returns the matched word and the remaining characters. -/
def tryPatterns (chars : List Char) : List String → Option (String × List Char)
  | [] => none
  | k :: ks =>
    match ciMatchPrefix k.toList chars with
    | some rest =>
      match rest with
      | [] => some (k, [])
      | r :: _ => if isWordChar r then tryPatterns chars ks else some (k, r :: rest.tail)
    | none => tryPatterns chars ks

/-- Left-to-right global scan of the keyword regex: at each position with a
leading word boundary, try the alternatives in order; on a match continue
after it (every pattern word ends in a word character, so the boundary
state after a match is word-character). Fuel is the remaining length. -/
def scanKeywords : Nat → Bool → List Char → List String
  | 0, _, _ => []
  | _ + 1, _, [] => []
  | fuel + 1, prevIsWord, c :: rest =>
    if prevIsWord then
      scanKeywords fuel (isWordChar c) rest
    else
      match tryPatterns (c :: rest) KEYWORD_PATTERN with
      | some (k, after) => k :: scanKeywords fuel true after
      | none => scanKeywords fuel (isWordChar c) rest

/-- Order-preserving deduplication, modelling `[...new Set(xs)]`. -/
def dedupKeep : List String → List String → List String
  | _, [] => []
  | seen, x :: xs => if seen.contains x then dedupKeep seen xs else x :: dedupKeep (x :: seen) xs

/-- Keyword extraction of `analyzeResponse` (aiService.js lines 220-221):
all word-boundary matches of the fixed pattern in the user input,
lowercased and deduplicated. Matched text equals the lowercase pattern
word since matching is case-insensitive over ASCII. -/
def extractInputKeywords (userInput : String) : List String :=
  dedupKeep [] (scanKeywords userInput.toList.length false userInput.toList)


/-- Analysis result of `analyzeResponse` (confidence in hundredths). -/
structure Analysis where
  type : String
  topics : List String
  keywords : List String
  confidence : Nat
  deriving DecidableEq, Repr

/-- The `analyzeResponse` heuristic of aiService.js (lines 181-230): the
type tag starts as SUGGESTION and is reassigned by each matching check in
the fixed order exercise, nutrition, mental-health, sleep over the AI
output, then greeting over the user input (last write wins); topics
accumulate across all matching checks; confidence is the constant 0.85. -/
def analyzeResponse (response userInput : String) : Analysis :=
  let input := jsToLower userInput
  let content := jsToLower response
  let typeA := "SUGGESTION"
  let topicsA : List String := []
  let stepB :=
    if strIncludes content ("workout") || strIncludes content ("exercise") ||
       strIncludes content ("training") || strIncludes content ("fitness") then
      (("EXERCISE"), topicsA ++ ["fitness"])
    else (typeA, topicsA)
  let stepC :=
    if strIncludes content ("nutrition") || strIncludes content ("meal") ||
       strIncludes content ("diet") || strIncludes content ("food") ||
       strIncludes content ("recipe") || strIncludes content ("calories") then
      (("NUTRITION"), stepB.2 ++ ["nutrition"])
    else stepB
  let stepD :=
    if strIncludes content ("stress") || strIncludes content ("anxiety") ||
       strIncludes content ("mental") || strIncludes content ("meditation") ||
       strIncludes content ("mindfulness") then
      (("MENTAL_HEALTH"), stepC.2 ++ ["mental_health"])
    else stepC
  let stepE :=
    if strIncludes content ("sleep") || strIncludes content ("rest") ||
       strIncludes content ("recovery") then
      (("SLEEP"), stepD.2 ++ ["sleep"])
    else stepD
  let stepF :=
    if strIncludes input ("hello") || strIncludes input ("hi") || strIncludes input ("hey") then
      (("GREETING"), stepE.2 ++ ["introduction"])
    else stepE
  { type := stepF.1, topics := stepF.2,
    keywords := extractInputKeywords userInput, confidence := 85 }

/-- Result record of `generateJoJoResponse` (the fields the route reads;
confidence in hundredths). -/
structure AiResult where
  content : String
  type : String
  confidence : Nat
  keywords : List String
  topics : List String
  fallbackUsed : Bool
  deriving DecidableEq, Repr

/-- The `getFallbackResponse` of aiService.js (lines 233-259). The
`profile?.firstName` read is always undefined (the `WellnessProfile`
schema has no `firstName`), so the greeting is always the anonymous one
and the content is a fixed string; emoji glyphs are not reproduced. -/
def getFallbackResponse (userInput : String) (profile : Option WellnessProfile) : AiResult :=
  let greeting := "Hi there! "
  { content := greeting ++ "I\x27m here to help with your wellness journey!\n\nI can provide personalized advice on:\n**Fitness & Exercise** - Workout plans, form tips, progression strategies\n**Nutrition** - Meal planning, healthy eating, budget-friendly options\n**Mental Health** - Stress management, mindfulness, emotional wellness\n**Sleep & Recovery** - Better sleep habits and rest optimization\n\nCould you tell me more specifically what you\x27d like help with? For example:\n- \"I want to start working out but don\x27t know where to begin\"\n- \"Help me plan healthy meals on a budget\"\n- \"I\x27m feeling stressed and need coping strategies\"\n- \"How can I improve my sleep quality?\"\n\nI\x27m here to support your wellness goals with practical, actionable advice!",
    type := "SUGGESTION", confidence := 60, keywords := [], topics := ["general"],
    fallbackUsed := true }

/-- One entry of the chat-completion messages array. -/
structure PromptMsg where
  role : String
  content : String
  deriving DecidableEq, Repr

/-- Per-message formatting inside `formatConversationHistory`
(aiService.js lines 174-177): role from the sender, content truncated to
1000 characters with an appended ellipsis when longer. -/
def formatHistoryEntry (msg : ChatMessage) : PromptMsg :=
  { role := if msg.sender = Sender.USER then "user" else "assistant",
    content :=
      if msg.content.length > 1000 then jsSubstring msg.content 1000 ++ "..."
      else msg.content }

/-- The `formatConversationHistory` of aiService.js (lines 173-178):
`history.slice(-5)` then the per-message map. -/
def formatConversationHistory (history : List ChatMessage) : List PromptMsg :=
  (history.drop (history.length - 5)).map formatHistoryEntry

/-- The `generateJoJoResponse` of aiService.js (lines 28-102). The
completion call is the oracle `provider`; the messages array it receives
is system prompt + formatted history + user input, of which the formatted
history (the part the claims speak about) is returned alongside the
result for observation. On success the output is analysed
(`analyzeResponse`); on any axios failure (network error, bad status,
timeout) the internal catch returns `getFallbackResponse` — the function
itself never throws. The unmodelled fields of the success result (model
id, token usage, processing time) are not read by the claims. -/
def generateJoJoResponse (userInput : String) (wellnessProfile : Option WellnessProfile)
    (conversationHistory : List ChatMessage) (provider : Option String) :
    AiResult × List PromptMsg :=
  let promptHistory := formatConversationHistory conversationHistory
  match provider with
  | some aiResponse =>
    let analysis := analyzeResponse aiResponse userInput
    ({ content := aiResponse, type := analysis.type, confidence := analysis.confidence,
       keywords := analysis.keywords, topics := analysis.topics, fallbackUsed := false },
     promptHistory)
  | none =>
    (getFallbackResponse userInput wellnessProfile, promptHistory)



/-- Model of JS `content.split(' ')` (split on the single space char). -/
def splitSpaceAux : List Char → List Char → List String
  | acc, [] => [String.mk acc.reverse]
  | acc, c :: cs =>
    if c == ' ' then String.mk acc.reverse :: splitSpaceAux [] cs
    else splitSpaceAux (c :: acc) cs

/-- Model of JavaScript `s.split(' ')`. -/
def jsSplitSpace (s : String) : List String :=
  splitSpaceAux [] s.toList

/-- The `generateTitle` helper of the POST /message route (jojo.js lines
425-429): first four space-separated words of the lowercased content with
the first character upper-cased. The empty-title branch interpolates the
locale date string, which is not modelled; that branch is unreachable for
validated (trimmed, non-empty) input, and is rendered here as "Chat". -/
def generateTitle (content : String) : String :=
  let words := (jsSplitSpace (jsToLower content)).take 4
  let title := String.intercalate (" ") words
  match title.toList with
  | [] => "Chat"
  | c :: cs => String.mk (c.toUpper :: cs)

/-- The database state the message route reads and writes. Rows are kept
in creation order; `nextId` models Prisma id generation. -/
structure Store where
  conversations : List ChatConversation
  messages : List ChatMessage
  crisisLogs : List CrisisLog
  analytics : List ChatAnalytics
  wellnessProfiles : List WellnessProfile
  nextId : Nat
  deriving DecidableEq, Repr

/-- The empty database. -/
def emptyStore : Store :=
  { conversations := [], messages := [], crisisLogs := [], analytics := [],
    wellnessProfiles := [], nextId := 0 }

/-- Messages of one conversation ordered by `createdAt` descending
(newest first), limited to `n` rows: the `prisma.chatMessage.findMany`
history query of the route (jojo.js lines 457-467 with `take: 10`). -/
def recentMessagesDesc (msgs : List ChatMessage) (conversationId : String) (n : Nat) :
    List ChatMessage :=
  ((msgs.filter (fun m => m.conversationId == conversationId)).reverse).take n

/-- The conversation history the completion provider receives for a given
message table state: the route fetches 10 newest-first, passes
`slice(0, 5)` to the service, and `formatConversationHistory` applies
`slice(-5)` and the per-message truncation. -/
def providerHistory (msgs : List ChatMessage) (conversationId : String) : List PromptMsg :=
  formatConversationHistory ((recentMessagesDesc msgs conversationId 10).take 5)

/-- Midnight-zeroed date of a millisecond timestamp: models
`today.setHours(0, 0, 0, 0)` (UTC rather than server-local midnight). -/
def dayStart (now : Nat) : Nat :=
  now - now % 86400000

/-- Models `Math.ceil(responseTime / 1000 / 60)` (minutes, rounded up). -/
def minutesCeil (responseTime : Nat) : Nat :=
  (responseTime + 59999) / 60000

/-- The `prisma.chatAnalytics.upsert` of the route (jojo.js lines
626-643): increment the (userId, date) row or create it with count 1.
The first matching row is updated, mirroring the unique (userId, date)
key of the schema. -/
def upsertAnalytics (rows : List ChatAnalytics) (userId : String) (date : Nat)
    (minutes : Nat) : List ChatAnalytics :=
  match rows with
  | [] => [{ userId := userId, date := date, messagesCount := 1, conversationTime := minutes }]
  | a :: rest =>
    if a.userId == userId && a.date == date then
      { a with messagesCount := a.messagesCount + 1,
               conversationTime := a.conversationTime + minutes } :: rest
    else
      a :: upsertAnalytics rest userId date minutes

/-- The `prisma.chatConversation.update` bumping `lastMessageAt` (jojo.js
lines 502-505 and 615-620). -/
def bumpConversation (conversations : List ChatConversation) (conversationId : String)
    (now : Nat) : List ChatConversation :=
  conversations.map (fun c => if c.id == conversationId then { c with lastMessageAt := now } else c)

/-- Data of a successful route response (jojo.js lines 507-520 and
645-660): the fields of `res.json({..., data})` the claims observe.
`metaType` is `metadata.responseType` = "crisis" on the crisis path and
`metadata.messageType` = `aiResponse.type` on the AI path. -/
structure SendOk where
  conversation : ChatConversation
  userMessage : ChatMessage
  jojoMessage : ChatMessage
  crisisDetected : Bool
  riskLevel : Option RiskLevel
  metaType : String
  metaKeywords : List String
  deriving DecidableEq, Repr

/-- Outcome of the POST /message handler: 400 validation rejection, 404
unknown conversation, or the 200 payload. -/
inductive SendResult where
  | validationError (message : String)
  | notFound
  | ok (data : SendOk)
  deriving DecidableEq, Repr

/-- Handler outcome together with the resulting database state and the
log of history arguments handed to the external completion call
(`completionCalls.length` is the external call count). -/
structure SendOutcome where
  result : SendResult
  store : Store
  completionCalls : List (List PromptMsg)
  deriving DecidableEq, Repr

/-- Conversation resolution of the route (jojo.js lines 410-438): an
explicit id must belong to the caller (else 404); with no id a new
conversation titled from the trimmed content is created. -/
def resolveConversation (st : Store) (userId : String) (conversationId : Option String)
    (content : String) (now : Nat) : Option (ChatConversation × Store) :=
  match conversationId with
  | some cid =>
    match st.conversations.find? (fun c => c.id == cid && c.userId == userId) with
    | none => none
    | some conversation => some (conversation, st)
  | none =>
    let conversation : ChatConversation :=
      { id := ("c") ++ toString st.nextId, userId := userId,
        title := generateTitle (jsTrim content), isActive := true, lastMessageAt := now }
    some (conversation, { st with conversations := st.conversations ++ [conversation],
                                  nextId := st.nextId + 1 })

/-- The user message row the route persists unconditionally after
validation (jojo.js lines 441-449): trimmed content, sender USER, type
TEXT. -/
def mkUserMessage (st : Store) (userId : String) (conversationId : String)
    (content : String) (now : Nat) : ChatMessage :=
  { id := st.nextId, conversationId := conversationId, userId := userId,
    content := jsTrim content, sender := Sender.USER, messageType := MessageType.TEXT,
    createdAt := now, responseTime := none, confidence := none, triggerKeywords := none }

/-- Post-validation body of the POST /message handler (jojo.js lines
440-660): persist the user message, load the wellness profile and the
recent history, run `detectCrisis` first; on a hit persist the crisis log
and the CRISIS_RESPONSE message and bump the conversation, never calling
the provider; otherwise call `generateJoJoResponse` (one completion
attempt), persist the typed assistant message, bump the conversation and
upsert the daily analytics row. -/
def handleMessage (st : Store) (userId : String) (conversation : ChatConversation)
    (content : String) (provider : Option String) (now responseTime : Nat) : SendOutcome :=
  let userMessage := mkUserMessage st userId conversation.id content now
  let st1 := { st with messages := st.messages ++ [userMessage], nextId := st.nextId + 1 }
  let wellnessProfile := st1.wellnessProfiles.find? (fun p => p.userId == userId)
  let conversationHistory := recentMessagesDesc st1.messages conversation.id 10
  let crisisDetection := detectCrisis content wellnessProfile
  if crisisDetection.isCrisis then
    let crisisLog : CrisisLog :=
      { userId := userId, messageId := some userMessage.id, triggerContent := content,
        keywords := crisisDetection.keywords, riskLevel := crisisDetection.riskLevel,
        responseGiven := crisisDetection.response,
        resourcesShared := crisisDetection.resources,
        userRegion := wellnessProfile.bind (fun p => p.region),
        hotlinesProvided := crisisDetection.hotlines,
        followUpNeeded := crisisDetection.riskLevel = RiskLevel.HIGH,
        adminNotified := crisisDetection.riskLevel = RiskLevel.HIGH }
    let st2 := { st1 with crisisLogs := st1.crisisLogs ++ [crisisLog] }
    let jojoMessage : ChatMessage :=
      { id := st2.nextId, conversationId := conversation.id, userId := userId,
        content := crisisDetection.response, sender := Sender.JOJO,
        messageType := MessageType.CRISIS_RESPONSE, createdAt := now,
        responseTime := none, confidence := none, triggerKeywords := none }
    let st3 := { st2 with messages := st2.messages ++ [jojoMessage], nextId := st2.nextId + 1 }
    let st4 := { st3 with conversations := bumpConversation st3.conversations conversation.id now }
    { result := SendResult.ok
        { conversation := conversation, userMessage := userMessage, jojoMessage := jojoMessage,
          crisisDetected := true, riskLevel := some crisisDetection.riskLevel,
          metaType := "crisis", metaKeywords := crisisDetection.keywords },
      store := st4, completionCalls := [] }
  else
    let ai := generateJoJoResponse content wellnessProfile (conversationHistory.take 5) provider
    let aiResponse := ai.1
    let jojoMessage : ChatMessage :=
      { id := st1.nextId, conversationId := conversation.id, userId := userId,
        content := aiResponse.content, sender := Sender.JOJO,
        messageType := mapMessageType aiResponse.type, createdAt := now,
        responseTime := some responseTime,
        confidence := some (if aiResponse.confidence == 0 then 70 else aiResponse.confidence),
        triggerKeywords := some aiResponse.keywords }
    let st2 := { st1 with messages := st1.messages ++ [jojoMessage], nextId := st1.nextId + 1 }
    let st3 := { st2 with conversations := bumpConversation st2.conversations conversation.id now }
    let st4 := { st3 with analytics := upsertAnalytics st3.analytics userId (dayStart now) (minutesCeil responseTime) }
    { result := SendResult.ok
        { conversation := conversation, userMessage := userMessage, jojoMessage := jojoMessage,
          crisisDetected := false, riskLevel := none,
          metaType := aiResponse.type, metaKeywords := aiResponse.keywords },
      store := st4, completionCalls := [ai.2] }

/-- The POST /message handler (jojo.js lines 390-670): content validation
(400 with no writes on empty/whitespace or over-long content),
conversation resolution (404 with no writes on an unknown id), then
`handleMessage`. -/
def sendMessage (st : Store) (userId : String) (conversationId : Option String)
    (content : String) (provider : Option String) (now responseTime : Nat) : SendOutcome :=
  if content == "" || (jsTrim content).length == 0 then
    { result := SendResult.validationError ("Message content is required"),
      store := st, completionCalls := [] }
  else if content.length > 2000 then
    { result := SendResult.validationError ("Message too long (max 2000 characters)"),
      store := st, completionCalls := [] }
  else
    match resolveConversation st userId conversationId content now with
    | none => { result := SendResult.notFound, store := st, completionCalls := [] }
    | some (conversation, st1) =>
      handleMessage st1 userId conversation content provider now responseTime

/-- True exactly on the 400 validation outcome. -/
def isValidationError : SendResult → Bool
  | SendResult.validationError _ => true
  | _ => false

/-- True exactly on the 200 outcome. -/
def isOk : SendResult → Bool
  | SendResult.ok _ => true
  | _ => false

/-- Stored message type of the assistant reply of a 200 outcome. -/
def resultJojoType : SendResult → Option MessageType
  | SendResult.ok r => some r.jojoMessage.messageType
  | _ => none

/-- Stored content of the assistant reply of a 200 outcome. -/
def resultJojoContent : SendResult → Option String
  | SendResult.ok r => some r.jojoMessage.content
  | _ => none

/-- Response-metadata type tag of a 200 outcome. -/
def resultMetaType : SendResult → Option String
  | SendResult.ok r => some r.metaType
  | _ => none

/-- Conversation id of a 200 outcome. -/
def resultConvId : SendResult → Option String
  | SendResult.ok r => some r.conversation.id
  | _ => none

/-- Number of stored assistant (JOJO-sent) messages. -/
def countJojoMessages (st : Store) : Nat :=
  (st.messages.filter (fun m => m.sender == Sender.JOJO)).length

/-- Total stored message count for one (user, day) analytics key. -/
def analyticsTotal (st : Store) (userId : String) (date : Nat) : Nat :=
  ((st.analytics.filter (fun a => a.userId == userId && a.date == date)).map
    (fun a => a.messagesCount)).sum


/-- Two stored messages of one conversation, in creation order. -/
def demoHistoryMessages : List ChatMessage :=
  [{ id := 0, conversationId := "c", userId := "u1", content := "first message",
     sender := Sender.USER, messageType := MessageType.TEXT, createdAt := 1,
     responseTime := none, confidence := none, triggerKeywords := none },
   { id := 1, conversationId := "c", userId := "u1", content := "second message",
     sender := Sender.JOJO, messageType := MessageType.TEXT, createdAt := 2,
     responseTime := none, confidence := none, triggerKeywords := none }]

/-- A stored message whose content has 1001 characters. -/
def longDemoMessage : ChatMessage :=
  { id := 0, conversationId := "c", userId := "u1",
    content := String.mk (List.replicate 1001 ('x')),
    sender := Sender.USER, messageType := MessageType.TEXT, createdAt := 1,
    responseTime := none, confidence := none, triggerKeywords := none }

/-- A conversation row used to instantiate the history claims. -/
def demoConv : ChatConversation :=
  { id := "c", userId := "u1", title := "t", isActive := true, lastMessageAt := 0 }

/-- Nonempty filtrate exactly when some element satisfies the predicate. -/
theorem filter_length_pos_iff {α : Type} (p : α → Bool) (l : List α) :
    0 < (l.filter p).length ↔ ∃ a ∈ l, p a = true := by
  induction l with
  | nil => simp
  | cons a t ih =>
    by_cases h : p a = true
    · simp [List.filter_cons, h]
    · simp only [List.filter_cons, h]
      simp only [Bool.false_eq_true, if_false, ih, List.mem_cons]
      constructor
      · rintro ⟨b, hb, hp⟩
        exact ⟨b, Or.inr hb, hp⟩
      · rintro ⟨b, hb | hb, hp⟩
        · exact absurd (hb ▸ hp) h
        · exact ⟨b, hb, hp⟩

/-- The classifier returns HIGH with the HIGH matches when a HIGH keyword
matches. -/
theorem classifyRisk_high (s : String)
    (h : 0 < (HIGH_RISK.filter (fun k => strIncludes (jsToLower s) k)).length) :
    classifyRisk s = (RiskLevel.HIGH, HIGH_RISK.filter (fun k => strIncludes (jsToLower s) k)) := by
  simp only [classifyRisk]
  rw [if_pos h]

/-- The classifier returns MEDIUM with the MEDIUM matches when no HIGH but
some MEDIUM keyword matches. -/
theorem classifyRisk_medium (s : String)
    (h1 : ¬ 0 < (HIGH_RISK.filter (fun k => strIncludes (jsToLower s) k)).length)
    (h2 : 0 < (MEDIUM_RISK.filter (fun k => strIncludes (jsToLower s) k)).length) :
    classifyRisk s = (RiskLevel.MEDIUM, MEDIUM_RISK.filter (fun k => strIncludes (jsToLower s) k)) := by
  simp only [classifyRisk]
  rw [if_neg h1, if_pos h2]

/-- The classifier returns LOW with the LOW matches when only LOW keywords
match. -/
theorem classifyRisk_low (s : String)
    (h1 : ¬ 0 < (HIGH_RISK.filter (fun k => strIncludes (jsToLower s) k)).length)
    (h2 : ¬ 0 < (MEDIUM_RISK.filter (fun k => strIncludes (jsToLower s) k)).length)
    (h3 : 0 < (LOW_RISK.filter (fun k => strIncludes (jsToLower s) k)).length) :
    classifyRisk s = (RiskLevel.LOW, LOW_RISK.filter (fun k => strIncludes (jsToLower s) k)) := by
  simp only [classifyRisk]
  rw [if_neg h1, if_neg h2, if_pos h3]

/-- The classifier returns the no-risk sentinel when no keyword of any
tier matches. -/
theorem classifyRisk_none (s : String)
    (h1 : ¬ 0 < (HIGH_RISK.filter (fun k => strIncludes (jsToLower s) k)).length)
    (h2 : ¬ 0 < (MEDIUM_RISK.filter (fun k => strIncludes (jsToLower s) k)).length)
    (h3 : ¬ 0 < (LOW_RISK.filter (fun k => strIncludes (jsToLower s) k)).length) :
    classifyRisk s = (RiskLevel.NONE, []) := by
  simp only [classifyRisk]
  rw [if_neg h1, if_neg h2, if_neg h3]

/-- The classifier result is the no-risk sentinel exactly when no keyword
of any of the three lists matches. -/
theorem classifyRisk_none_iff (s : String) :
    (classifyRisk s).1 = RiskLevel.NONE ↔
      ¬ ∃ k ∈ HIGH_RISK ++ MEDIUM_RISK ++ LOW_RISK, strIncludes (jsToLower s) k = true := by
  by_cases h1 : 0 < (HIGH_RISK.filter (fun k => strIncludes (jsToLower s) k)).length
  · rw [classifyRisk_high s h1]
    simp only [filter_length_pos_iff] at h1
    obtain ⟨k, hk, hs⟩ := h1
    simp only [List.mem_append]
    constructor
    · intro hfalse
      exact absurd hfalse (by decide)
    · intro hno
      exact absurd (hno ⟨k, Or.inl (Or.inl hk), hs⟩).elim id
  · by_cases h2 : 0 < (MEDIUM_RISK.filter (fun k => strIncludes (jsToLower s) k)).length
    · rw [classifyRisk_medium s h1 h2]
      simp only [filter_length_pos_iff] at h2
      obtain ⟨k, hk, hs⟩ := h2
      simp only [List.mem_append]
      constructor
      · intro hfalse
        exact absurd hfalse (by decide)
      · intro hno
        exact absurd (hno ⟨k, Or.inl (Or.inr hk), hs⟩).elim id
    · by_cases h3 : 0 < (LOW_RISK.filter (fun k => strIncludes (jsToLower s) k)).length
      · rw [classifyRisk_low s h1 h2 h3]
        simp only [filter_length_pos_iff] at h3
        obtain ⟨k, hk, hs⟩ := h3
        simp only [List.mem_append]
        constructor
        · intro hfalse
          exact absurd hfalse (by decide)
        · intro hno
          exact absurd (hno ⟨k, Or.inr hk, hs⟩).elim id
      · rw [classifyRisk_none s h1 h2 h3]
        simp only [filter_length_pos_iff] at h1 h2 h3
        simp only [List.mem_append]
        constructor
        · rintro - ⟨k, hk | hk, hs⟩
          · rcases hk with hk | hk
            · exact h1 ⟨k, hk, hs⟩
            · exact h2 ⟨k, hk, hs⟩
          · exact h3 ⟨k, hk, hs⟩
        · intro _
          trivial

/-- Crisis is flagged exactly when the classifier found a tier. -/
theorem detectCrisis_isCrisis_iff (s : String) (p : Option WellnessProfile) :
    (detectCrisis s p).isCrisis = true ↔ (classifyRisk s).1 ≠ RiskLevel.NONE := by
  by_cases h : (classifyRisk s).1 = RiskLevel.NONE <;> simp [detectCrisis, h]

/-- On a crisis, the detection record carries the classifier tier, the
classifier keywords and the rendered regional response. -/
theorem detectCrisis_fields (s : String) (p : Option WellnessProfile)
    (h : (classifyRisk s).1 ≠ RiskLevel.NONE) :
    (detectCrisis s p).riskLevel = (classifyRisk s).1
    ∧ (detectCrisis s p).keywords = (classifyRisk s).2
    ∧ (detectCrisis s p).response =
        generateCrisisResponse (p.bind (fun q => q.region)) ((classifyRisk s).1)
    ∧ (detectCrisis s p).resources = getCrisisResources (p.bind (fun q => q.region))
    ∧ (detectCrisis s p).hotlines = getCrisisHotlines (p.bind (fun q => q.region)) := by
  simp [detectCrisis, h]

/-- Claim C2: `detectCrisis` implements the tiered reference algorithm:
HIGH with the full set of matched HIGH keywords whenever any HIGH phrase
is a (case-insensitive) substring, regardless of co-occurring lower
tiers; otherwise MEDIUM with all MEDIUM matches; otherwise LOW with all
LOW matches; and no risk exactly when no phrase of the three lists is a
substring. Matching a keyword is `strIncludes (jsToLower s) k`, the
lowercased-text containment the source computes (the keyword tables are
all lowercase, so this is case-insensitive substring matching). -/
theorem detectCrisis_tier_precedence (s : String) (p : Option WellnessProfile) :
    ((∃ k ∈ HIGH_RISK, strIncludes (jsToLower s) k = true) →
      (detectCrisis s p).riskLevel = RiskLevel.HIGH
      ∧ (detectCrisis s p).keywords = HIGH_RISK.filter (fun k => strIncludes (jsToLower s) k))
    ∧ ((¬ ∃ k ∈ HIGH_RISK, strIncludes (jsToLower s) k = true) →
       (∃ k ∈ MEDIUM_RISK, strIncludes (jsToLower s) k = true) →
      (detectCrisis s p).riskLevel = RiskLevel.MEDIUM
      ∧ (detectCrisis s p).keywords = MEDIUM_RISK.filter (fun k => strIncludes (jsToLower s) k))
    ∧ ((¬ ∃ k ∈ HIGH_RISK, strIncludes (jsToLower s) k = true) →
       (¬ ∃ k ∈ MEDIUM_RISK, strIncludes (jsToLower s) k = true) →
       (∃ k ∈ LOW_RISK, strIncludes (jsToLower s) k = true) →
      (detectCrisis s p).riskLevel = RiskLevel.LOW
      ∧ (detectCrisis s p).keywords = LOW_RISK.filter (fun k => strIncludes (jsToLower s) k))
    ∧ ((detectCrisis s p).isCrisis = false ↔
        ¬ ∃ k ∈ HIGH_RISK ++ MEDIUM_RISK ++ LOW_RISK, strIncludes (jsToLower s) k = true) := by
  refine ⟨?_, ?_, ?_, ?_⟩
  · intro hex
    rw [← filter_length_pos_iff] at hex
    have hcl := classifyRisk_high s hex
    have hne : (classifyRisk s).1 ≠ RiskLevel.NONE := by rw [hcl]; simp
    obtain ⟨hr, hk, -⟩ := detectCrisis_fields s p hne
    rw [hr, hk, hcl]
    exact ⟨rfl, rfl⟩
  · intro hnh hem
    rw [← filter_length_pos_iff] at hnh hem
    have hcl := classifyRisk_medium s hnh hem
    have hne : (classifyRisk s).1 ≠ RiskLevel.NONE := by rw [hcl]; simp
    obtain ⟨hr, hk, -⟩ := detectCrisis_fields s p hne
    rw [hr, hk, hcl]
    exact ⟨rfl, rfl⟩
  · intro hnh hnm hel
    rw [← filter_length_pos_iff] at hnh hnm hel
    have hcl := classifyRisk_low s hnh hnm hel
    have hne : (classifyRisk s).1 ≠ RiskLevel.NONE := by rw [hcl]; simp
    obtain ⟨hr, hk, -⟩ := detectCrisis_fields s p hne
    rw [hr, hk, hcl]
    exact ⟨rfl, rfl⟩
  · rw [← classifyRisk_none_iff]
    constructor
    · intro hfalse
      by_contra hne
      rw [(detectCrisis_isCrisis_iff s p).mpr hne] at hfalse
      exact absurd hfalse (by decide)
    · intro hnone
      simp [detectCrisis, hnone]

/-- Witness for C2 at a concrete input containing a HIGH and a MEDIUM
phrase: tier precedence picks HIGH with the matched HIGH keywords. -/
theorem detectCrisis_tier_precedence_witness :
    (detectCrisis ("I want to KILL myself, I feel hopeless") none).riskLevel = RiskLevel.HIGH
    ∧ (detectCrisis ("I want to KILL myself, I feel hopeless") none).keywords =
        HIGH_RISK.filter (fun k => strIncludes (jsToLower ("I want to KILL myself, I feel hopeless")) k) :=
  (detectCrisis_tier_precedence ("I want to KILL myself, I feel hopeless") none).1
    ⟨("kill myself"), by decide, by decide⟩

/-- Claim C9: risk detection does not read the wellness profile — for any
message and any two profiles (including absent profiles and profiles with
`crisisMonitoring := false`), the detected tier, keyword list and crisis
flag coincide; they are functions of the message text alone. -/
theorem risk_classification_profile_independent (s : String)
    (p1 p2 : Option WellnessProfile) :
    (detectCrisis s p1).riskLevel = (detectCrisis s p2).riskLevel
    ∧ (detectCrisis s p1).keywords = (detectCrisis s p2).keywords
    ∧ (detectCrisis s p1).isCrisis = (detectCrisis s p2).isCrisis := by
  by_cases h : (classifyRisk s).1 = RiskLevel.NONE <;> simp [detectCrisis, h]

/-- Claim C6: region resolution for crisis hotlines is a case-insensitive
substring match — any region containing "nigeria" yields the Nigeria
hotline set; the recognised regions Nigeria, USA, UK and Canada yield
their specific sets; an absent region and a region matching none of the
four table entries yield the international fallback. Resolution is a
total function, so it can never raise. -/
theorem region_hotline_resolution :
    (∀ r : String, strIncludes (jsToLower r) ("nigeria") = true →
      getCrisisHotlines (some r) = ["+234 809 210 6493", "199", "911", "08000333333"])
    ∧ getCrisisHotlines (some ("Nigeria")) = ["+234 809 210 6493", "199", "911", "08000333333"]
    ∧ getCrisisHotlines (some ("USA")) = ["988", "741741", "911", "1-800-799-7233"]
    ∧ getCrisisHotlines (some ("UK")) = ["116 123", "85258", "999", "0808 2000 247"]
    ∧ getCrisisHotlines (some ("Canada")) = ["1-833-456-4566", "45645", "911"]
    ∧ getCrisisHotlines none = ["Local emergency services"]
    ∧ (∀ r : String,
        strIncludes (jsToLower r) ("nigeria") = false →
        strIncludes (jsToLower r) ("usa") = false →
        strIncludes (jsToLower r) ("uk") = false →
        strIncludes (jsToLower r) ("canada") = false →
        getCrisisHotlines (some r) = ["Local emergency services"]) := by
  refine ⟨?_, by decide, by decide, by decide, by decide, by decide, ?_⟩
  · intro r h
    simp [getCrisisHotlines, h]
  · intro r h1 h2 h3 h4
    simp [getCrisisHotlines, h1, h2, h3, h4]

/-- Witness for C6: a region string containing "NIGERIA" in another case
and with surrounding text resolves to the Nigeria hotline set, and a
region matching no table entry falls back to the international entry. -/
theorem region_hotline_resolution_witness :
    getCrisisHotlines (some ("Lagos, NIGERIA")) = ["+234 809 210 6493", "199", "911", "08000333333"]
    ∧ getCrisisHotlines (some ("Germany")) = ["Local emergency services"] :=
  ⟨(region_hotline_resolution).1 ("Lagos, NIGERIA") (by decide),
   (region_hotline_resolution).2.2.2.2.2.2 ("Germany") (by decide) (by decide) (by decide) (by decide)⟩

/-- The post-validation handler always answers 200. -/
theorem handleMessage_result_ok (st : Store) (uid : String) (conv : ChatConversation)
    (content : String) (prov : Option String) (now rt : Nat) :
    isOk (handleMessage st uid conv content prov now rt).result = true := by
  simp only [handleMessage]
  split <;> rfl

/-- A 200 outcome is not a validation rejection. -/
theorem isValidationError_eq_false_of_isOk (r : SendResult) (h : isOk r = true) :
    isValidationError r = false := by
  cases r <;> simp_all [isOk, isValidationError]

/-- Conversation resolution touches only the conversation table and the
id counter, and returns a conversation present in the resulting store. -/
theorem resolveConversation_preserves (st : Store) (uid : String) (cid : Option String)
    (content : String) (now : Nat) (conv : ChatConversation) (st' : Store)
    (h : resolveConversation st uid cid content now = some (conv, st')) :
    st'.messages = st.messages ∧ st'.crisisLogs = st.crisisLogs
    ∧ st'.analytics = st.analytics ∧ st'.wellnessProfiles = st.wellnessProfiles
    ∧ conv ∈ st'.conversations := by
  cases cid with
  | some c =>
    simp only [resolveConversation] at h
    cases hf : st.conversations.find? (fun x => x.id == c && x.userId == uid) with
    | none => rw [hf] at h; cases h
    | some cc =>
      rw [hf] at h
      injection h with h1
      injection h1 with hconv hst
      subst hconv
      subst hst
      exact ⟨rfl, rfl, rfl, rfl, List.mem_of_find?_eq_some hf⟩
  | none =>
    simp only [resolveConversation] at h
    injection h with h1
    injection h1 with hconv hst
    subst hconv
    subst hst
    exact ⟨rfl, rfl, rfl, rfl, List.mem_append_right _ (List.mem_singleton.mpr rfl)⟩

/-- A 200 outcome factors through conversation resolution and the
post-validation handler. -/
theorem sendMessage_ok_inv (st : Store) (uid : String) (cid : Option String)
    (content : String) (prov : Option String) (now rt : Nat)
    (h : isOk (sendMessage st uid cid content prov now rt).result = true) :
    ∃ conv st', resolveConversation st uid cid content now = some (conv, st')
      ∧ sendMessage st uid cid content prov now rt = handleMessage st' uid conv content prov now rt := by
  by_cases h1 : (content == "" || (jsTrim content).length == 0) = true
  · simp [sendMessage, h1, isOk] at h
  · have h1' : (content == "" || (jsTrim content).length == 0) = false := by
      revert h1; cases (content == "" || (jsTrim content).length == 0) <;> simp
    by_cases h2 : content.length > 2000
    · simp [sendMessage, h1', h2, isOk] at h
    · cases hres : resolveConversation st uid cid content now with
      | none => simp [sendMessage, h1', h2, hres, isOk] at h
      | some pr =>
        cases pr with
        | mk conv st' =>
          refine ⟨conv, st', rfl, ?_⟩
          simp [sendMessage, h1', h2, hres]

/-- Message-table shape after the post-validation handler: the user row
(trimmed content, sender USER) followed by one assistant row. -/
theorem handleMessage_messages (st : Store) (uid : String) (conv : ChatConversation)
    (content : String) (prov : Option String) (now rt : Nat) :
    ∃ jm, (handleMessage st uid conv content prov now rt).store.messages
        = (st.messages ++ [mkUserMessage st uid conv.id content now]) ++ [jm]
      ∧ jm.sender = Sender.JOJO := by
  simp only [handleMessage]
  split
  · exact ⟨_, rfl, rfl⟩
  · exact ⟨_, rfl, rfl⟩

/-- Crisis-log table shape after the post-validation handler: unchanged
without a detected tier; exactly one appended row carrying the classifier
tier and the HIGH-only escalation flags with a detected tier. -/
theorem handleMessage_crisisLogs (st : Store) (uid : String) (conv : ChatConversation)
    (content : String) (prov : Option String) (now rt : Nat) :
    ((classifyRisk content).1 = RiskLevel.NONE →
      (handleMessage st uid conv content prov now rt).store.crisisLogs = st.crisisLogs)
    ∧ ((classifyRisk content).1 ≠ RiskLevel.NONE →
      ∃ log, (handleMessage st uid conv content prov now rt).store.crisisLogs
          = st.crisisLogs ++ [log]
        ∧ (log.followUpNeeded = true ↔ (classifyRisk content).1 = RiskLevel.HIGH)
        ∧ (log.adminNotified = true ↔ (classifyRisk content).1 = RiskLevel.HIGH)
        ∧ log.riskLevel = (classifyRisk content).1
        ∧ log.keywords = (classifyRisk content).2) := by
  constructor
  · intro hnone
    have hc : (detectCrisis content ((st.wellnessProfiles).find? (fun p => p.userId == uid))).isCrisis = false := by
      simp [detectCrisis, hnone]
    simp only [handleMessage]
    rw [if_neg (by simp [hc])]
  · intro hne
    have hc := (detectCrisis_isCrisis_iff content ((st.wellnessProfiles).find? (fun p => p.userId == uid))).mpr hne
    obtain ⟨hr, hk, -⟩ := detectCrisis_fields content ((st.wellnessProfiles).find? (fun p => p.userId == uid)) hne
    simp only [handleMessage]
    rw [if_pos (by simp [hc])]
    refine ⟨_, rfl, ?_, ?_, ?_, ?_⟩
    · simp [hr, decide_eq_true_iff]
    · simp [hr, decide_eq_true_iff]
    · exact hr
    · exact hk

/-- Claim C5: content of exactly 2000 characters passes validation (for
actual content, i.e. not all-whitespace — the whitespace case is the
separate emptiness check settled by the whitespace claim); content of
2001 characters, or empty content, is rejected with a validation error
with the store unchanged and no completion call. -/
theorem content_length_validation :
    (∀ (st : Store) (uid : String) (cid : Option String) (prov : Option String)
       (now rt : Nat) (content : String),
      (jsTrim content).length ≠ 0 → content.length = 2000 →
      isValidationError (sendMessage st uid cid content prov now rt).result = false)
    ∧ (∀ (st : Store) (uid : String) (cid : Option String) (prov : Option String)
         (now rt : Nat) (content : String), content.length = 2001 →
      isValidationError (sendMessage st uid cid content prov now rt).result = true
      ∧ (sendMessage st uid cid content prov now rt).store = st
      ∧ (sendMessage st uid cid content prov now rt).completionCalls = [])
    ∧ (∀ (st : Store) (uid : String) (cid : Option String) (prov : Option String)
         (now rt : Nat),
      isValidationError (sendMessage st uid cid ("") prov now rt).result = true
      ∧ (sendMessage st uid cid ("") prov now rt).store = st
      ∧ (sendMessage st uid cid ("") prov now rt).completionCalls = []) := by
  refine ⟨?_, ?_, ?_⟩
  · intro st uid cid prov now rt content h1 h2
    have hne : content ≠ "" := by
      intro he
      apply h1
      rw [he]
      rfl
    have hc1 : (content == "" || (jsTrim content).length == 0) = false := by
      rw [Bool.or_eq_false_iff]
      exact ⟨beq_eq_false_iff_ne.mpr hne, beq_eq_false_iff_ne.mpr h1⟩
    have h2' : ¬ content.length > 2000 := by omega
    simp only [sendMessage, hc1, Bool.false_eq_true, if_false]
    rw [if_neg h2']
    cases hres : resolveConversation st uid cid content now with
    | none => rfl
    | some pr =>
      cases pr with
      | mk conv st' =>
        exact isValidationError_eq_false_of_isOk _ (handleMessage_result_ok st' uid conv content prov now rt)
  · intro st uid cid prov now rt content h
    by_cases hc : (content == "" || (jsTrim content).length == 0) = true
    · refine ⟨?_, ?_, ?_⟩ <;> simp [sendMessage, hc, isValidationError]
    · have hc' : (content == "" || (jsTrim content).length == 0) = false := by
        revert hc; cases (content == "" || (jsTrim content).length == 0) <;> simp
      have h2 : content.length > 2000 := by omega
      refine ⟨?_, ?_, ?_⟩ <;> simp [sendMessage, hc', h2, isValidationError]
  · intro st uid cid prov now rt
    exact ⟨rfl, rfl, rfl⟩

/-- Length of a packed character list. -/
theorem mk_length (l : List Char) : (String.mk l).length = l.length := rfl

/-- Trimming a repeated non-whitespace character changes nothing. -/
theorem jsTrim_replicate_nonws (n : Nat) (c : Char) (h : isJsWhitespace c = false) :
    jsTrim (String.mk (List.replicate n c)) = String.mk (List.replicate n c) := by
  cases n with
  | zero => rfl
  | succ m =>
    show String.mk (((List.replicate (m + 1) c).dropWhile isJsWhitespace).reverse.dropWhile isJsWhitespace).reverse = _
    rw [List.replicate_succ, List.dropWhile_cons]
    simp only [h, Bool.false_eq_true, if_false]
    rw [← List.replicate_succ, List.reverse_replicate, List.replicate_succ,
        List.dropWhile_cons]
    simp only [h, Bool.false_eq_true, if_false]
    rw [← List.replicate_succ, List.reverse_replicate]

/-- Witness for C5: a 2000-character content passes validation and a
2001-character content is rejected. -/
theorem content_length_validation_witness :
    ((jsTrim (String.mk (List.replicate 2000 ('a')))).length ≠ 0
      ∧ (String.mk (List.replicate 2000 ('a'))).length = 2000
      ∧ isValidationError (sendMessage emptyStore ("u1") none (String.mk (List.replicate 2000 ('a'))) none 0 0).result = false)
    ∧ ((String.mk (List.replicate 2001 ('a'))).length = 2001
      ∧ isValidationError (sendMessage emptyStore ("u1") none (String.mk (List.replicate 2001 ('a'))) none 0 0).result = true) := by
  have h1 : (jsTrim (String.mk (List.replicate 2000 ('a')))).length ≠ 0 := by
    rw [jsTrim_replicate_nonws 2000 ('a') (by decide), mk_length, List.length_replicate]
    omega
  have h2 : (String.mk (List.replicate 2000 ('a'))).length = 2000 := by
    rw [mk_length, List.length_replicate]
  have h3 : (String.mk (List.replicate 2001 ('a'))).length = 2001 := by
    rw [mk_length, List.length_replicate]
  refine ⟨⟨h1, h2, ?_⟩, ⟨h3, ?_⟩⟩
  · exact (content_length_validation).1 emptyStore ("u1") none none 0 0 _ h1 h2
  · exact ((content_length_validation).2.1 emptyStore ("u1") none none 0 0 _ h3).1

/-- Claim C10: non-empty but all-whitespace content is rejected exactly
like empty content (validation error, no persistence, no completion
call); and whenever a message is accepted, the persisted user row carries
the trimmed content. -/
theorem whitespace_validation_and_trim :
    (∀ (st : Store) (uid : String) (cid : Option String) (prov : Option String)
       (now rt : Nat) (content : String),
      content ≠ ("") → content.toList.all isJsWhitespace = true →
      isValidationError (sendMessage st uid cid content prov now rt).result = true
      ∧ (sendMessage st uid cid content prov now rt).store = st
      ∧ (sendMessage st uid cid content prov now rt).completionCalls = [])
    ∧ (∀ (st : Store) (uid : String) (cid : Option String) (prov : Option String)
         (now rt : Nat) (content : String),
      isOk (sendMessage st uid cid content prov now rt).result = true →
      ∃ um jm, (sendMessage st uid cid content prov now rt).store.messages
          = (st.messages ++ [um]) ++ [jm]
        ∧ um.sender = Sender.USER ∧ um.content = jsTrim content
        ∧ um.messageType = MessageType.TEXT ∧ jm.sender = Sender.JOJO) := by
  constructor
  · intro st uid cid prov now rt content hne hws
    have hd : content.toList.dropWhile isJsWhitespace = [] := by
      rw [List.dropWhile_eq_nil_iff]
      intro x hx
      exact List.all_eq_true.mp hws x hx
    have hempty : jsTrim content = "" := by
      unfold jsTrim
      rw [hd]
      rfl
    have hlen : ((jsTrim content).length == 0) = true := by
      rw [hempty]
      rfl
    have hc : (content == "" || (jsTrim content).length == 0) = true := by
      rw [hlen]
      exact Bool.or_true _
    refine ⟨?_, ?_, ?_⟩ <;> simp [sendMessage, hc, isValidationError]
  · intro st uid cid prov now rt content h
    obtain ⟨conv, st', hres, heq⟩ := sendMessage_ok_inv st uid cid content prov now rt h
    obtain ⟨hm, -, -, -, -⟩ := resolveConversation_preserves st uid cid content now conv st' hres
    obtain ⟨jm, hjm, hjs⟩ := handleMessage_messages st' uid conv content prov now rt
    refine ⟨mkUserMessage st' uid conv.id content now, jm, ?_, rfl, rfl, rfl, hjs⟩
    rw [heq, hjm, hm]

/-- Witness for C10: three spaces are rejected as validation failure, and
an accepted padded message is stored trimmed. -/
theorem whitespace_validation_and_trim_witness :
    (("   ") ≠ ("")
      ∧ ("   ").toList.all isJsWhitespace = true
      ∧ isValidationError (sendMessage emptyStore ("u1") none ("   ") none 0 0).result = true)
    ∧ (isOk (sendMessage emptyStore ("u1") none ("  hi there  ") none 0 0).result = true
      ∧ ∃ um jm, (sendMessage emptyStore ("u1") none ("  hi there  ") none 0 0).store.messages
          = (emptyStore.messages ++ [um]) ++ [jm]
        ∧ um.sender = Sender.USER ∧ um.content = jsTrim ("  hi there  ")
        ∧ um.messageType = MessageType.TEXT ∧ jm.sender = Sender.JOJO) := by
  refine ⟨⟨by decide, by decide, ?_⟩, ⟨by decide, ?_⟩⟩
  · exact ((whitespace_validation_and_trim).1 emptyStore ("u1") none none 0 0 ("   ") (by decide) (by decide)).1
  · exact (whitespace_validation_and_trim).2 emptyStore ("u1") none none 0 0 ("  hi there  ") (by decide)

/-- Claim C3: every accepted message persists exactly one assistant
message; exactly one CrisisLog row is persisted iff the classifier
detected risk, and in that log `followUpNeeded` and `adminNotified` hold
iff the detected tier is HIGH. -/
theorem accepted_message_persistence_invariant
    (st : Store) (uid : String) (cid : Option String) (content : String)
    (prov : Option String) (now rt : Nat)
    (h : isOk (sendMessage st uid cid content prov now rt).result = true) :
    countJojoMessages (sendMessage st uid cid content prov now rt).store
      = countJojoMessages st + 1
    ∧ ((classifyRisk content).1 = RiskLevel.NONE →
        (sendMessage st uid cid content prov now rt).store.crisisLogs = st.crisisLogs)
    ∧ ((classifyRisk content).1 ≠ RiskLevel.NONE →
        ∃ log, (sendMessage st uid cid content prov now rt).store.crisisLogs
            = st.crisisLogs ++ [log]
          ∧ (log.followUpNeeded = true ↔ (classifyRisk content).1 = RiskLevel.HIGH)
          ∧ (log.adminNotified = true ↔ (classifyRisk content).1 = RiskLevel.HIGH)
          ∧ log.riskLevel = (classifyRisk content).1
          ∧ log.keywords = (classifyRisk content).2) := by
  obtain ⟨conv, st', hres, heq⟩ := sendMessage_ok_inv st uid cid content prov now rt h
  obtain ⟨hm, hcl, -, -, -⟩ := resolveConversation_preserves st uid cid content now conv st' hres
  obtain ⟨jm, hjm, hjs⟩ := handleMessage_messages st' uid conv content prov now rt
  rw [heq]
  refine ⟨?_, ?_, ?_⟩
  · unfold countJojoMessages
    rw [hjm, hm, List.filter_append, List.filter_append]
    simp [mkUserMessage, hjs]
  · intro hnone
    rw [(handleMessage_crisisLogs st' uid conv content prov now rt).1 hnone, hcl]
  · intro hne
    obtain ⟨log, hlog, h4, h5, h6, h7⟩ :=
      (handleMessage_crisisLogs st' uid conv content prov now rt).2 hne
    exact ⟨log, by rw [hlog, hcl], h4, h5, h6, h7⟩

/-- Witness for C3 at a concrete MEDIUM-risk input on the empty store. -/
theorem accepted_message_persistence_invariant_witness :
    countJojoMessages (sendMessage emptyStore ("u1") none ("I feel hopeless") none 0 0).store
      = countJojoMessages emptyStore + 1
    ∧ ((classifyRisk ("I feel hopeless")).1 = RiskLevel.NONE →
        (sendMessage emptyStore ("u1") none ("I feel hopeless") none 0 0).store.crisisLogs = emptyStore.crisisLogs)
    ∧ ((classifyRisk ("I feel hopeless")).1 ≠ RiskLevel.NONE →
        ∃ log, (sendMessage emptyStore ("u1") none ("I feel hopeless") none 0 0).store.crisisLogs
            = emptyStore.crisisLogs ++ [log]
          ∧ (log.followUpNeeded = true ↔ (classifyRisk ("I feel hopeless")).1 = RiskLevel.HIGH)
          ∧ (log.adminNotified = true ↔ (classifyRisk ("I feel hopeless")).1 = RiskLevel.HIGH)
          ∧ log.riskLevel = (classifyRisk ("I feel hopeless")).1
          ∧ log.keywords = (classifyRisk ("I feel hopeless")).2) :=
  accepted_message_persistence_invariant emptyStore ("u1") none ("I feel hopeless") none 0 0 (by decide)

/-- Crisis-branch behaviour of the post-validation handler: no completion
call, and the 200 payload carries the rendered crisis response as a
CRISIS_RESPONSE message with crisis metadata. -/
theorem handleMessage_crisis_branch (st : Store) (uid : String) (conv : ChatConversation)
    (content : String) (prov : Option String) (now rt : Nat)
    (hrisk : (classifyRisk content).1 ≠ RiskLevel.NONE) :
    (handleMessage st uid conv content prov now rt).completionCalls = []
    ∧ resultJojoContent (handleMessage st uid conv content prov now rt).result
        = some ((detectCrisis content ((st.wellnessProfiles).find? (fun p => p.userId == uid))).response)
    ∧ resultJojoType (handleMessage st uid conv content prov now rt).result
        = some MessageType.CRISIS_RESPONSE
    ∧ resultMetaType (handleMessage st uid conv content prov now rt).result = some ("crisis") := by
  have hc := (detectCrisis_isCrisis_iff content ((st.wellnessProfiles).find? (fun p => p.userId == uid))).mpr hrisk
  simp only [handleMessage]
  rw [if_pos (by simp [hc])]
  exact ⟨rfl, rfl, rfl, rfl⟩

/-- Claim C1: whenever the classifier detects any risk tier, the message
operation performs zero external completion calls, and an accepted
request is answered with the rendered safety reply (the crisis response
for the caller profile region and detected tier) persisted as a
CRISIS_RESPONSE message. -/
theorem crisis_path_no_completion_call
    (st : Store) (uid : String) (cid : Option String) (content : String)
    (prov : Option String) (now rt : Nat)
    (hrisk : (classifyRisk content).1 ≠ RiskLevel.NONE) :
    (sendMessage st uid cid content prov now rt).completionCalls = []
    ∧ (isOk (sendMessage st uid cid content prov now rt).result = true →
        resultJojoContent (sendMessage st uid cid content prov now rt).result
          = some (generateCrisisResponse
              (((st.wellnessProfiles).find? (fun p => p.userId == uid)).bind (fun p => p.region))
              ((classifyRisk content).1))
        ∧ resultJojoType (sendMessage st uid cid content prov now rt).result
            = some MessageType.CRISIS_RESPONSE
        ∧ resultMetaType (sendMessage st uid cid content prov now rt).result = some ("crisis")) := by
  by_cases h1 : (content == "" || (jsTrim content).length == 0) = true
  · constructor
    · simp [sendMessage, h1]
    · intro hok
      simp [sendMessage, h1, isOk] at hok
  · have h1' : (content == "" || (jsTrim content).length == 0) = false := by
      revert h1; cases (content == "" || (jsTrim content).length == 0) <;> simp
    by_cases h2 : content.length > 2000
    · constructor
      · simp [sendMessage, h1', h2]
      · intro hok
        simp [sendMessage, h1', h2, isOk] at hok
    · cases hres : resolveConversation st uid cid content now with
      | none =>
        constructor
        · simp [sendMessage, h1', h2, hres]
        · intro hok
          simp [sendMessage, h1', h2, hres, isOk] at hok
      | some pr =>
        cases pr with
        | mk conv st' =>
          have heq : sendMessage st uid cid content prov now rt
              = handleMessage st' uid conv content prov now rt := by
            simp [sendMessage, h1', h2, hres]
          have hwp : st'.wellnessProfiles = st.wellnessProfiles :=
            (resolveConversation_preserves st uid cid content now conv st' hres).2.2.2.1
          obtain ⟨hcalls, hcontent, htype, hmeta⟩ :=
            handleMessage_crisis_branch st' uid conv content prov now rt hrisk
          rw [heq]
          refine ⟨hcalls, fun hok => ⟨?_, htype, hmeta⟩⟩
          rw [hcontent, hwp]
          obtain ⟨-, -, hresp, -, -⟩ :=
            detectCrisis_fields content ((st.wellnessProfiles).find? (fun p => p.userId == uid)) hrisk
          rw [hresp]

/-- Witness for C1 at a concrete MEDIUM-risk input, with a provider that
would have answered: the call log stays empty. -/
theorem crisis_path_no_completion_call_witness :
    (sendMessage emptyStore ("u1") none ("I feel hopeless") (some ("ok")) 0 0).completionCalls = []
    ∧ (isOk (sendMessage emptyStore ("u1") none ("I feel hopeless") (some ("ok")) 0 0).result = true →
        resultJojoContent (sendMessage emptyStore ("u1") none ("I feel hopeless") (some ("ok")) 0 0).result
          = some (generateCrisisResponse
              (((emptyStore.wellnessProfiles).find? (fun p => p.userId == ("u1"))).bind (fun p => p.region))
              ((classifyRisk ("I feel hopeless")).1))
        ∧ resultJojoType (sendMessage emptyStore ("u1") none ("I feel hopeless") (some ("ok")) 0 0).result
            = some MessageType.CRISIS_RESPONSE
        ∧ resultMetaType (sendMessage emptyStore ("u1") none ("I feel hopeless") (some ("ok")) 0 0).result = some ("crisis")) :=
  crisis_path_no_completion_call emptyStore ("u1") none ("I feel hopeless") (some ("ok")) 0 0 (by decide)

/-- AI-branch behaviour of the post-validation handler: one completion
call with the formatted history, assistant row typed through
`mapMessageType`, analytics upserted for the day, conversation bumped. -/
theorem handleMessage_ai_branch (st : Store) (uid : String) (conv : ChatConversation)
    (content : String) (prov : Option String) (now rt : Nat)
    (hnc : (classifyRisk content).1 = RiskLevel.NONE) :
    resultJojoType (handleMessage st uid conv content prov now rt).result
      = some (mapMessageType ((generateJoJoResponse content
          ((st.wellnessProfiles).find? (fun p => p.userId == uid))
          ((recentMessagesDesc (st.messages ++ [mkUserMessage st uid conv.id content now]) conv.id 10).take 5)
          prov).1.type))
    ∧ resultJojoContent (handleMessage st uid conv content prov now rt).result
      = some ((generateJoJoResponse content
          ((st.wellnessProfiles).find? (fun p => p.userId == uid))
          ((recentMessagesDesc (st.messages ++ [mkUserMessage st uid conv.id content now]) conv.id 10).take 5)
          prov).1.content)
    ∧ resultMetaType (handleMessage st uid conv content prov now rt).result
      = some ((generateJoJoResponse content
          ((st.wellnessProfiles).find? (fun p => p.userId == uid))
          ((recentMessagesDesc (st.messages ++ [mkUserMessage st uid conv.id content now]) conv.id 10).take 5)
          prov).1.type)
    ∧ (handleMessage st uid conv content prov now rt).store.analytics
      = upsertAnalytics st.analytics uid (dayStart now) (minutesCeil rt)
    ∧ (handleMessage st uid conv content prov now rt).completionCalls
      = [(generateJoJoResponse content
          ((st.wellnessProfiles).find? (fun p => p.userId == uid))
          ((recentMessagesDesc (st.messages ++ [mkUserMessage st uid conv.id content now]) conv.id 10).take 5)
          prov).2]
    ∧ (handleMessage st uid conv content prov now rt).store.conversations
      = bumpConversation st.conversations conv.id now
    ∧ resultConvId (handleMessage st uid conv content prov now rt).result = some conv.id := by
  have hc : (detectCrisis content ((st.wellnessProfiles).find? (fun p => p.userId == uid))).isCrisis = false := by
    simp [detectCrisis, hnc]
  simp only [handleMessage]
  rw [if_neg (by simp [hc])]
  exact ⟨rfl, rfl, rfl, rfl, rfl, rfl, rfl⟩

/-- Upserting one exchange raises the keyed analytics message total by
exactly one. -/
theorem upsertAnalytics_total (rows : List ChatAnalytics) (uid : String) (d m : Nat) :
    (((upsertAnalytics rows uid d m).filter (fun a => a.userId == uid && a.date == d)).map
      (fun a => a.messagesCount)).sum
    = ((rows.filter (fun a => a.userId == uid && a.date == d)).map
      (fun a => a.messagesCount)).sum + 1 := by
  induction rows with
  | nil => simp [upsertAnalytics]
  | cons a rest ih =>
    by_cases hk : (a.userId == uid && a.date == d) = true
    · simp only [upsertAnalytics, hk, if_true]
      simp [List.filter_cons, hk]
      omega
    · have hk' : (a.userId == uid && a.date == d) = false := by
        revert hk; cases (a.userId == uid && a.date == d) <;> simp
      simp only [upsertAnalytics, hk', Bool.false_eq_true, if_false]
      simp [List.filter_cons, hk', ih]

/-- Bumping preserves membership and stamps the timestamp. -/
theorem bumpConversation_mem (l : List ChatConversation) (cid : String) (now : Nat)
    (c : ChatConversation) (hc : c ∈ l) (hid : c.id = cid) :
    ∃ c2 ∈ bumpConversation l cid now, c2.id = cid ∧ c2.lastMessageAt = now := by
  refine ⟨{c with lastMessageAt := now}, ?_, hid, rfl⟩
  unfold bumpConversation
  have heq : (if c.id == cid then {c with lastMessageAt := now} else c)
      = {c with lastMessageAt := now} := by
    simp [hid]
  exact heq ▸ List.mem_map_of_mem _ hc

/-- Counterexample to claim C4 as stated: with the completion provider
failing on a non-crisis message, the persisted assistant row has
messageType TEXT, not SUGGESTION (the SUGGESTION tag survives only in the
response metadata), and the daily analytics row IS incremented (from no
row to count 1) rather than left alone. -/
theorem provider_failure_claim_counterexample :
    resultJojoType (sendMessage emptyStore ("u1") none ("please advise") none 0 0).result
      = some MessageType.TEXT
    ∧ MessageType.TEXT ≠ MessageType.SUGGESTION
    ∧ resultMetaType (sendMessage emptyStore ("u1") none ("please advise") none 0 0).result
      = some ("SUGGESTION")
    ∧ analyticsTotal emptyStore ("u1") 0 = 0
    ∧ analyticsTotal (sendMessage emptyStore ("u1") none ("please advise") none 0 0).store ("u1") 0 = 1 := by
  refine ⟨by decide, by decide, by decide, by decide, by decide⟩

/-- Claim C4 as amended: when the completion call fails on an accepted
non-crisis message, the assistant row is persisted with messageType TEXT
(the analysis tag SUGGESTION is sent to TEXT by `mapMessageType` and is
reported only in the response metadata) and the fixed fallback content;
the daily analytics row IS incremented by one, and the conversation
timestamp is still bumped. -/
theorem provider_failure_fallback_behavior
    (st : Store) (uid : String) (cid : Option String) (content : String) (now rt : Nat)
    (h : isOk (sendMessage st uid cid content none now rt).result = true)
    (hnc : (classifyRisk content).1 = RiskLevel.NONE) :
    resultJojoType (sendMessage st uid cid content none now rt).result = some MessageType.TEXT
    ∧ resultMetaType (sendMessage st uid cid content none now rt).result = some ("SUGGESTION")
    ∧ resultJojoContent (sendMessage st uid cid content none now rt).result
        = some ((getFallbackResponse content none).content)
    ∧ (∀ (i : String) (p : Option WellnessProfile),
        (getFallbackResponse i p).content = (getFallbackResponse content none).content)
    ∧ analyticsTotal (sendMessage st uid cid content none now rt).store uid (dayStart now)
        = analyticsTotal st uid (dayStart now) + 1
    ∧ (∃ c ∈ (sendMessage st uid cid content none now rt).store.conversations,
        resultConvId (sendMessage st uid cid content none now rt).result = some c.id
        ∧ c.lastMessageAt = now) := by
  obtain ⟨conv, st', hres, heq⟩ := sendMessage_ok_inv st uid cid content none now rt h
  obtain ⟨-, -, han, hwp, hmem⟩ := resolveConversation_preserves st uid cid content now conv st' hres
  obtain ⟨ht, hcont, hmeta, hanal, -, hconvs, hcid⟩ :=
    handleMessage_ai_branch st' uid conv content none now rt hnc
  rw [heq]
  refine ⟨?_, ?_, ?_, ?_, ?_, ?_⟩
  · rw [ht]; rfl
  · rw [hmeta]; rfl
  · rw [hcont]; rfl
  · intro i p; rfl
  · unfold analyticsTotal
    rw [hanal, han]
    exact upsertAnalytics_total st.analytics uid (dayStart now) (minutesCeil rt)
  · obtain ⟨c2, hc2, hc2id, hc2now⟩ := bumpConversation_mem st'.conversations conv.id now conv hmem rfl
    refine ⟨c2, ?_, ?_, hc2now⟩
    · rw [hconvs]; exact hc2
    · rw [hcid, hc2id]

/-- Witness for the amended C4 at a concrete non-crisis input with a
failing provider on the empty store. -/
theorem provider_failure_fallback_behavior_witness :
    resultJojoType (sendMessage emptyStore ("u1") none ("please advise") none 0 0).result = some MessageType.TEXT
    ∧ resultMetaType (sendMessage emptyStore ("u1") none ("please advise") none 0 0).result = some ("SUGGESTION")
    ∧ resultJojoContent (sendMessage emptyStore ("u1") none ("please advise") none 0 0).result
        = some ((getFallbackResponse ("please advise") none).content)
    ∧ (∀ (i : String) (p : Option WellnessProfile),
        (getFallbackResponse i p).content = (getFallbackResponse ("please advise") none).content)
    ∧ analyticsTotal (sendMessage emptyStore ("u1") none ("please advise") none 0 0).store ("u1") (dayStart 0)
        = analyticsTotal emptyStore ("u1") (dayStart 0) + 1
    ∧ (∃ c ∈ (sendMessage emptyStore ("u1") none ("please advise") none 0 0).store.conversations,
        resultConvId (sendMessage emptyStore ("u1") none ("please advise") none 0 0).result = some c.id
        ∧ c.lastMessageAt = 0) :=
  provider_failure_fallback_behavior emptyStore ("u1") none ("please advise") 0 0 (by decide) (by decide)

/-- Evaluation of the C7 scenario on the embedded code: the user asks for
a beginner workout, the provider succeeds with a workout reply, the
analysis tags it EXERCISE (visible in the response metadata), yet the
persisted assistant row carries messageType TEXT because `mapMessageType`
sends EXERCISE to TEXT; the daily analytics count is incremented by 1. -/
theorem beginner_workout_scenario_eval :
    resultMetaType (sendMessage emptyStore ("u1") none ("What\x27s a good beginner workout?")
        (some ("Here is a simple beginner workout to get you started.")) 0 0).result
      = some ("EXERCISE")
    ∧ mapMessageType ("EXERCISE") = MessageType.TEXT
    ∧ resultJojoType (sendMessage emptyStore ("u1") none ("What\x27s a good beginner workout?")
        (some ("Here is a simple beginner workout to get you started.")) 0 0).result
      = some MessageType.TEXT
    ∧ MessageType.TEXT ≠ MessageType.EXERCISE
    ∧ analyticsTotal emptyStore ("u1") 0 = 0
    ∧ analyticsTotal (sendMessage emptyStore ("u1") none ("What\x27s a good beginner workout?")
        (some ("Here is a simple beginner workout to get you started.")) 0 0).store ("u1") 0 = 1 := by
  refine ⟨by decide, by decide, by decide, by decide, by decide, by decide⟩

/-- Formatting the 1001-character message yields 1003 characters: the
source truncates to 1000 and appends a three-character ellipsis. -/
theorem formatHistoryEntry_long_length :
    (formatHistoryEntry longDemoMessage).content.length = 1003 := by
  have hlen : longDemoMessage.content.length = 1001 := by
    show (String.mk (List.replicate 1001 ('x'))).length = 1001
    rw [mk_length, List.length_replicate]
  show (if longDemoMessage.content.length > 1000 then
      jsSubstring longDemoMessage.content 1000 ++ "..." else longDemoMessage.content).length = 1003
  rw [if_pos (by rw [hlen]; omega)]
  rw [String.length_append]
  have hsub : (jsSubstring longDemoMessage.content 1000).length = 1000 := by
    show (String.mk ((String.mk (List.replicate 1001 ('x'))).toList.take 1000)).length = 1000
    rw [mk_length]
    show ((List.replicate 1001 ('x')).take 1000).length = 1000
    rw [List.length_take, List.length_replicate]
    decide
  rw [hsub]
  decide

/-- Counterexample to claim C8 as stated: the completion provider
receives the five newest messages still in descending (newest-first)
order — the route never reverses the descending fetch into chronological
order — and a long message is truncated to 1000 characters plus an
appended "..." for 1003 characters total, above the claimed
1000-character ceiling. -/
theorem history_order_truncation_counterexample :
    (providerHistory demoHistoryMessages ("c")).map (fun m => m.content)
      = ["second message", "first message"]
    ∧ ¬ ((providerHistory demoHistoryMessages ("c")).map (fun m => m.content)
        = ["first message", "second message"])
    ∧ (formatHistoryEntry longDemoMessage).content.length = 1003
    ∧ ¬ ((formatHistoryEntry longDemoMessage).content.length ≤ 1000) := by
  refine ⟨by decide, by decide, formatHistoryEntry_long_length, ?_⟩
  rw [formatHistoryEntry_long_length]
  omega

/-- Both provider outcomes hand the same formatted history to the call. -/
theorem generateJoJoResponse_snd (userInput : String) (wp : Option WellnessProfile)
    (hist : List ChatMessage) (prov : Option String) :
    (generateJoJoResponse userInput wp hist prov).2 = formatConversationHistory hist := by
  cases prov <;> rfl

/-- Claim C8 as amended: the history handed to the completion provider is
exactly the 5 most recent messages of the conversation across both
senders in descending (newest-first) creation order — fetched descending
and passed through without reversal — with each entry's content of at
most 1003 characters (contents over 1000 characters are cut to 1000 and
get an appended three-character ellipsis); and on the non-crisis path the
handler performs exactly one completion call carrying that history. -/
theorem provider_history_characterization :
    (∀ (msgs : List ChatMessage) (cid : String),
      providerHistory msgs cid
        = (((msgs.filter (fun m => m.conversationId == cid)).reverse).take 5).map formatHistoryEntry)
    ∧ (∀ m : ChatMessage, (formatHistoryEntry m).content.length ≤ 1003)
    ∧ (∀ (st : Store) (uid : String) (conv : ChatConversation) (content : String)
         (prov : Option String) (now rt : Nat),
        (classifyRisk content).1 = RiskLevel.NONE →
        (handleMessage st uid conv content prov now rt).completionCalls
          = [providerHistory (st.messages ++ [mkUserMessage st uid conv.id content now]) conv.id]) := by
  refine ⟨?_, ?_, ?_⟩
  · intro msgs cid
    unfold providerHistory formatConversationHistory recentMessagesDesc
    rw [List.take_take]
    norm_num
  · intro m
    show (if m.content.length > 1000 then
        jsSubstring m.content 1000 ++ "..." else m.content).length ≤ 1003
    by_cases hl : m.content.length > 1000
    · rw [if_pos hl, String.length_append]
      have hsub : (jsSubstring m.content 1000).length ≤ 1000 := by
        show (String.mk (m.content.toList.take 1000)).length ≤ 1000
        rw [mk_length, List.length_take]
        exact min_le_left _ _
      have h3 : ("...").length = 3 := rfl
      omega
    · rw [if_neg hl]
      omega
  · intro st uid conv content prov now rt hnc
    obtain ⟨-, -, -, -, hcalls, -, -⟩ := handleMessage_ai_branch st uid conv content prov now rt hnc
    rw [hcalls, generateJoJoResponse_snd]
    rfl

/-- Witness for the amended C8: on a concrete non-crisis request the
handler logs exactly one completion call with the computed history. -/
theorem provider_history_characterization_witness :
    (handleMessage emptyStore ("u1") demoConv ("please advise") none 0 0).completionCalls
      = [providerHistory (emptyStore.messages ++ [mkUserMessage emptyStore ("u1") demoConv.id ("please advise") 0]) demoConv.id] :=
  (provider_history_characterization).2.2 emptyStore ("u1") demoConv ("please advise") none 0 0 (by decide)
